import Mathlib

/-! # Tray controller: `shell/browser/api/atom_api_tray.cc`

A shallow embedding of the tray controller (`electron::api::Tray`) and of the
icon-type converter (`mate::Converter<electron::TrayIcon::IconType>`).

* C++ out-parameters (`T* out`) become an extra argument holding the value the
  caller had in the variable, and the function returns the success flag paired
  with the variable's value afterwards.
* `tray_icon_`, `menu_`, the JavaScript exception state of `mate::Arguments`
  and the event emitter the controller inherits are explicit state.
* The compile-time branches `#if defined(OS_WIN)` / `#if defined(OS_MACOSX)`
  become a `Platform` argument.
-/

namespace gfx

/-- Screen coordinate, `gfx::Point`. -/
structure Point where
  x : Int
  y : Int
  deriving DecidableEq, Repr

/-- Screen rectangle, `gfx::Rect`. -/
structure Rect where
  x : Int
  y : Int
  width : Int
  height : Int
  deriving DecidableEq, Repr

end gfx

/-- Compile-time target of the build (`OS_WIN`, `OS_MACOSX`, otherwise Linux). -/
inductive Platform where
  | win
  | mac
  | linux
  deriving DecidableEq, Repr

/-- Icon resource handed to the controller (`api::NativeImage`); the pixels are
not inspected by the controller, only the identity of the resource matters. -/
structure NativeImage where
  id : Nat
  deriving DecidableEq, Repr

/-- Native menu object reached through `menu->model()`. -/
structure AtomMenuModel where
  id : Nat
  deriving DecidableEq, Repr

/-- Menu wrapper object (`api::Menu`) with its `model()` accessor. -/
structure Menu where
  id : Nat
  model : AtomMenuModel
  deriving DecidableEq, Repr

/-- A `mate::Handle<T>`: empty (`IsEmpty()`) or holding an object. -/
abbrev Handle (T : Type) := Option T

/-- JavaScript values as the controller receives them. `point` stands for a
plain object with integer `x` and `y`, `object` for any other object. -/
inductive V8Value where
  | undefined
  | null
  | boolean (b : Bool)
  | number (n : Int)
  | string (s : String)
  | nativeImage (img : NativeImage)
  | menu (m : Menu)
  | point (p : gfx.Point)
  | object (tag : Nat)
  deriving DecidableEq, Repr

/-- Values of `TrayIcon::IconType`. -/
inductive IconType where
  | None
  | Info
  | Warning
  | Error
  | Custom
  deriving DecidableEq, Repr

/-- Size classes asked from `GetSystemMetrics` on Windows. -/
inductive SystemMetric where
  | SM_CXICON
  | SM_CXSMICON
  deriving DecidableEq, Repr

/-- What a `TrayIcon` receives as an image (`TrayIcon::ImageType`): on Windows
the result of `image->GetHICON(GetSystemMetrics(metric))`, elsewhere the result
of `image->image()`. Both are kept symbolic in the resource they come from. -/
inductive ImageType where
  | hicon (src : NativeImage) (metric : SystemMetric)
  | image (src : NativeImage)
  deriving DecidableEq, Repr

/-! ## Converters from JavaScript values -/

/-- Modelled from the spec: the string converter of native_mate (not among the
sources); a string token converts to itself, any other value does not convert
and leaves the output untouched. -/
def ConvertFromV8_string (val : V8Value) (out : String) : Bool × String :=
  match val with
  | .string s => (true, s)
  | _ => (false, out)

/-- Modelled from the spec: the boolean converter of native_mate (not among the
sources); only a boolean converts. -/
def ConvertFromV8_bool (val : V8Value) (out : Bool) : Bool × Bool :=
  match val with
  | .boolean b => (true, b)
  | _ => (false, out)

/-- Modelled from the spec: the converter to `mate::Handle<NativeImage>` (not
among the sources); an icon resource converts to a handle on it, other values
do not convert (decoding an image from a path is outside the controller). -/
def ConvertFromV8_image (val : V8Value) (out : Handle NativeImage) :
    Bool × Handle NativeImage :=
  match val with
  | .nativeImage img => (true, some img)
  | _ => (false, out)

/-- Modelled from the spec: the converter to `mate::Handle<Menu>` (not among
the sources); a menu converts to a handle on it, `null` and `undefined` convert
to the empty handle, other values do not convert. -/
def ConvertFromV8_menu (val : V8Value) (out : Handle Menu) : Bool × Handle Menu :=
  match val with
  | .menu m => (true, some m)
  | .null => (true, none)
  | .undefined => (true, none)
  | _ => (false, out)

/-- Modelled from the spec: the converter to `gfx::Point` (gfx_converter, not
among the sources); only an object with integer `x` and `y` converts. -/
def ConvertFromV8_point (val : V8Value) (out : gfx.Point) : Bool × gfx.Point :=
  match val with
  | .point p => (true, p)
  | _ => (false, out)

/-- The converter `mate::Converter<electron::TrayIcon::IconType>::FromV8`:
the value is first converted to a string `mode`, then compared with the five
tokens; `out` is written only on the five successful paths. -/
def IconType.FromV8 (val : V8Value) (out : IconType) : Bool × IconType :=
  let r := ConvertFromV8_string val ""
  let mode := r.2
  if r.1 then
    if mode = "none" then (true, IconType.None)
    else if mode = "info" then (true, IconType.Info)
    else if mode = "warning" then (true, IconType.Warning)
    else if mode = "error" then (true, IconType.Error)
    else if mode = "custom" then (true, IconType.Custom)
    else (false, out)
  else (false, out)

/-- The icon-type tokens of the specification, `none`, `info`, `warning`,
`error`, `custom`, with the enum value each one names. -/
def iconTypeTokens : List (String × IconType) :=
  [("none", IconType.None), ("info", IconType.Info), ("warning", IconType.Warning),
   ("error", IconType.Error), ("custom", IconType.Custom)]

/-! ## Collaborators of the controller -/

/-- The record `TrayIcon::BalloonOptions` assembled by `DisplayBalloon`. -/
structure BalloonOptions where
  icon_type : IconType
  icon : Option ImageType
  title : String
  content : String
  large_icon : Bool
  no_sound : Bool
  respect_quiet_time : Bool
  deriving DecidableEq, Repr

/-- One call made on the `TrayIcon` owned by the controller. -/
inductive TrayIconCall where
  | SetImage (image : ImageType)
  | SetPressedImage (image : ImageType)
  | SetToolTip (tool_tip : String)
  | SetTitle (title : String)
  | SetIgnoreDoubleClickEvents (ignore : Bool)
  | DisplayBalloon (options : BalloonOptions)
  | RemoveBalloon
  | Focus
  | PopUpContextMenu (pos : gfx.Point) (menu_model : Option AtomMenuModel)
  | SetContextMenu (menu_model : Option AtomMenuModel)
  | AddObserver
  deriving DecidableEq, Repr

/-- Modelled from the spec: the platform abstraction `TrayIcon` (tray_icon.h is
not among the sources), with the state the data model of the specification
gives it and the log of the calls it has received, oldest first. -/
structure TrayIcon where
  image : Option ImageType
  pressed_image : Option ImageType
  tool_tip : String
  title : String
  ignore_double_click_events : Bool
  menu_model : Option AtomMenuModel
  observers : Nat
  bounds : gfx.Rect
  calls : List TrayIconCall
  deriving DecidableEq, Repr

namespace TrayIcon

/-- Modelled from the spec: `TrayIcon::Create()` gives a new TrayIcon with no
icon set, no observer and no call received yet. -/
def Create : TrayIcon :=
  { image := none, pressed_image := none, tool_tip := "", title := "",
    ignore_double_click_events := false, menu_model := none, observers := 0,
    bounds := ⟨0, 0, 0, 0⟩, calls := [] }

/-- Modelled from the spec: `TrayIcon::SetImage` replaces the current icon. -/
def SetImage (self : TrayIcon) (image : ImageType) : TrayIcon :=
  { self with image := some image, calls := self.calls ++ [.SetImage image] }

/-- Modelled from the spec: `TrayIcon::SetPressedImage` replaces the current
pressed icon. -/
def SetPressedImage (self : TrayIcon) (image : ImageType) : TrayIcon :=
  { self with pressed_image := some image,
              calls := self.calls ++ [.SetPressedImage image] }

/-- Modelled from the spec: `TrayIcon::SetToolTip` replaces the tooltip. -/
def SetToolTip (self : TrayIcon) (tool_tip : String) : TrayIcon :=
  { self with tool_tip := tool_tip, calls := self.calls ++ [.SetToolTip tool_tip] }

/-- Modelled from the spec: `TrayIcon::SetTitle` replaces the title. -/
def SetTitle (self : TrayIcon) (title : String) : TrayIcon :=
  { self with title := title, calls := self.calls ++ [.SetTitle title] }

/-- Modelled from the spec: `TrayIcon::GetTitle` reads the title. -/
def GetTitle (self : TrayIcon) : String := self.title

/-- Modelled from the spec: `TrayIcon::SetIgnoreDoubleClickEvents` replaces the
double-click-ignore flag. -/
def SetIgnoreDoubleClickEvents (self : TrayIcon) (ignore : Bool) : TrayIcon :=
  { self with ignore_double_click_events := ignore,
              calls := self.calls ++ [.SetIgnoreDoubleClickEvents ignore] }

/-- Modelled from the spec: `TrayIcon::GetIgnoreDoubleClickEvents` reads the
double-click-ignore flag. -/
def GetIgnoreDoubleClickEvents (self : TrayIcon) : Bool :=
  self.ignore_double_click_events

/-- Modelled from the spec: `TrayIcon::DisplayBalloon` triggers a balloon; only
the call is recorded. -/
def DisplayBalloon (self : TrayIcon) (options : BalloonOptions) : TrayIcon :=
  { self with calls := self.calls ++ [.DisplayBalloon options] }

/-- Modelled from the spec: `TrayIcon::RemoveBalloon`; only the call is
recorded. -/
def RemoveBalloon (self : TrayIcon) : TrayIcon :=
  { self with calls := self.calls ++ [.RemoveBalloon] }

/-- Modelled from the spec: `TrayIcon::Focus`; only the call is recorded. -/
def Focus (self : TrayIcon) : TrayIcon :=
  { self with calls := self.calls ++ [.Focus] }

/-- Modelled from the spec: `TrayIcon::PopUpContextMenu(pos, menu_model)`; only
the call is recorded. -/
def PopUpContextMenu (self : TrayIcon) (pos : gfx.Point)
    (menu_model : Option AtomMenuModel) : TrayIcon :=
  { self with calls := self.calls ++ [.PopUpContextMenu pos menu_model] }

/-- Modelled from the spec: `TrayIcon::SetContextMenu` attaches or detaches the
persistent context menu. -/
def SetContextMenu (self : TrayIcon) (menu_model : Option AtomMenuModel) : TrayIcon :=
  { self with menu_model := menu_model,
              calls := self.calls ++ [.SetContextMenu menu_model] }

/-- Modelled from the spec: `TrayIcon::GetBounds` reads the on-screen
rectangle. -/
def GetBounds (self : TrayIcon) : gfx.Rect := self.bounds

/-- Modelled from the spec: `TrayIcon::AddObserver` subscribes one more
observer. -/
def AddObserver (self : TrayIcon) : TrayIcon :=
  { self with observers := self.observers + 1, calls := self.calls ++ [.AddObserver] }

end TrayIcon

/-- The options object of `displayBalloon`, a `mate::Dictionary`: the entries
of a JavaScript object, first match wins. -/
abbrev Dictionary := List (String × V8Value)

/-- Modelled from the spec: `mate::Dictionary::Get(key, out)` (native_mate, not
among the sources); it fails when the key is missing and otherwise converts the
entry into `out` with the converter of the type of `out`. -/
def Dictionary.Get {T : Type} (options : Dictionary) (key : String)
    (convert : V8Value → T → Bool × T) (out : T) : Bool × T :=
  match options.lookup key with
  | some val => convert val out
  | none => (false, out)

/-- Modelled from the spec: the call arguments `mate::Arguments` (native_mate,
not among the sources): the JavaScript values passed, the index of the next one
to read, and the error messages thrown so far, oldest first. -/
structure Arguments where
  info : List V8Value
  next : Nat
  thrown : List String
  deriving DecidableEq, Repr

/-- Modelled from the spec: `mate::Arguments::ThrowError(message)` raises a
JavaScript error. -/
def Arguments.ThrowError (args : Arguments) (message : String) : Arguments :=
  { args with thrown := args.thrown ++ [message] }

/-- Modelled from the spec: `mate::Arguments::GetNext(out)` reads the next
positional argument; it fails when none is left or when the value does not
convert, and moves on to the following argument only on success, which makes
every positional argument optional. -/
def Arguments.GetNext {T : Type} (args : Arguments)
    (convert : V8Value → T → Bool × T) (out : T) : Bool × T × Arguments :=
  match args.info.get? args.next with
  | none => (false, out, args)
  | some val =>
    let r := convert val out
    if r.1 then (true, r.2, { args with next := args.next + 1 })
    else (false, r.2, args)

/-- One positional value of an outbound event. -/
inductive EventArg where
  | flags (modifiers : Int)
  | rect (bounds : gfx.Rect)
  | point (location : gfx.Point)
  | strings (files : List String)
  | string (text : String)
  deriving DecidableEq, Repr

/-- An outbound event as the Event Sink receives it: name and ordered
payload. -/
structure Event where
  name : String
  payload : List EventArg
  deriving DecidableEq, Repr

/-- The hosting application: the readiness flag read by
`Browser::Get()->is_ready()` and the number of `TrayIcon::Create()` calls made
so far. -/
structure Host where
  is_ready : Bool
  tray_icons_created : Nat
  deriving DecidableEq, Repr

/-! ## The controller -/

/-- The controller `electron::api::Tray`: its TrayIcon `tray_icon_`, the
retained menu `menu_`, and the events it has emitted to the Event Sink, oldest
first. -/
structure Tray where
  tray_icon_ : TrayIcon
  menu_ : Handle Menu
  emitted : List Event
  deriving DecidableEq, Repr

namespace Tray

/-- Modelled from the spec: `EventEmitter::Emit(name, args...)` (event_emitter.h
is not among the sources) hands the Event Sink the name and the arguments in
order. -/
def Emit (self : Tray) (name : String) (args : List EventArg) : Tray :=
  { self with emitted := self.emitted ++ [⟨name, args⟩] }

/-- Modelled from the spec: `EventEmitter::EmitWithFlags(name, flags, args...)`
(event_emitter.h is not among the sources) hands the Event Sink the name, the
modifier flags, then the arguments in order. -/
def EmitWithFlags (self : Tray) (name : String) (flags : Int)
    (args : List EventArg) : Tray :=
  { self with emitted := self.emitted ++ [⟨name, .flags flags :: args⟩] }

/-- `Tray::SetImage`. -/
def SetImage (os : Platform) (self : Tray) (image : NativeImage) : Tray :=
  match os with
  | .win =>
    { self with tray_icon_ :=
        self.tray_icon_.SetImage (.hicon image SystemMetric.SM_CXSMICON) }
  | _ => { self with tray_icon_ := self.tray_icon_.SetImage (.image image) }

/-- The constructor `Tray::Tray`: creates the TrayIcon, sets the image, then
registers the controller as observer. `InitWith` only ties the object to its
JavaScript wrapper and is left out. -/
def ctor (os : Platform) (host : Host) (image : NativeImage) : Host × Tray :=
  let host := { host with tray_icons_created := host.tray_icons_created + 1 }
  let self : Tray := { tray_icon_ := TrayIcon.Create, menu_ := none, emitted := [] }
  let self := SetImage os self image
  let self := { self with tray_icon_ := self.tray_icon_.AddObserver }
  (host, self)

/-- `Tray::New`: throws and returns `nullptr` when the application is not
ready, otherwise constructs the controller. -/
def New (os : Platform) (host : Host) (image : NativeImage) (args : Arguments) :
    Host × Arguments × Option Tray :=
  if !host.is_ready then
    (host, args.ThrowError "Cannot create Tray before app is ready", none)
  else
    let r := ctor os host image
    (r.1, args, some r.2)

/-- `Tray::OnClicked`. -/
def OnClicked (self : Tray) (bounds : gfx.Rect) (location : gfx.Point)
    (modifiers : Int) : Tray :=
  self.EmitWithFlags "click" modifiers [.rect bounds, .point location]

/-- `Tray::OnDoubleClicked`. -/
def OnDoubleClicked (self : Tray) (bounds : gfx.Rect) (modifiers : Int) : Tray :=
  self.EmitWithFlags "double-click" modifiers [.rect bounds]

/-- `Tray::OnRightClicked`. -/
def OnRightClicked (self : Tray) (bounds : gfx.Rect) (modifiers : Int) : Tray :=
  self.EmitWithFlags "right-click" modifiers [.rect bounds]

/-- `Tray::OnBalloonShow`. -/
def OnBalloonShow (self : Tray) : Tray := self.Emit "balloon-show" []

/-- `Tray::OnBalloonClicked`. -/
def OnBalloonClicked (self : Tray) : Tray := self.Emit "balloon-click" []

/-- `Tray::OnBalloonClosed`. -/
def OnBalloonClosed (self : Tray) : Tray := self.Emit "balloon-closed" []

/-- `Tray::OnDrop`. -/
def OnDrop (self : Tray) : Tray := self.Emit "drop" []

/-- `Tray::OnDropFiles`. -/
def OnDropFiles (self : Tray) (files : List String) : Tray :=
  self.Emit "drop-files" [.strings files]

/-- `Tray::OnDropText`. -/
def OnDropText (self : Tray) (text : String) : Tray :=
  self.Emit "drop-text" [.string text]

/-- `Tray::OnMouseEntered`. -/
def OnMouseEntered (self : Tray) (location : gfx.Point) (modifiers : Int) : Tray :=
  self.EmitWithFlags "mouse-enter" modifiers [.point location]

/-- `Tray::OnMouseExited`. -/
def OnMouseExited (self : Tray) (location : gfx.Point) (modifiers : Int) : Tray :=
  self.EmitWithFlags "mouse-leave" modifiers [.point location]

/-- `Tray::OnMouseMoved`. -/
def OnMouseMoved (self : Tray) (location : gfx.Point) (modifiers : Int) : Tray :=
  self.EmitWithFlags "mouse-move" modifiers [.point location]

/-- `Tray::OnDragEntered`. -/
def OnDragEntered (self : Tray) : Tray := self.Emit "drag-enter" []

/-- `Tray::OnDragExited`. -/
def OnDragExited (self : Tray) : Tray := self.Emit "drag-leave" []

/-- `Tray::OnDragEnded`. -/
def OnDragEnded (self : Tray) : Tray := self.Emit "drag-end" []

/-- `Tray::SetPressedImage`. -/
def SetPressedImage (os : Platform) (self : Tray) (image : NativeImage) : Tray :=
  match os with
  | .win =>
    { self with tray_icon_ :=
        self.tray_icon_.SetPressedImage (.hicon image SystemMetric.SM_CXSMICON) }
  | _ => { self with tray_icon_ := self.tray_icon_.SetPressedImage (.image image) }

/-- `Tray::SetToolTip`. -/
def SetToolTip (self : Tray) (tool_tip : String) : Tray :=
  { self with tray_icon_ := self.tray_icon_.SetToolTip tool_tip }

/-- `Tray::SetTitle`: forwarded on macOS only. -/
def SetTitle (os : Platform) (self : Tray) (title : String) : Tray :=
  match os with
  | .mac => { self with tray_icon_ := self.tray_icon_.SetTitle title }
  | _ => self

/-- `Tray::GetTitle`: read from the TrayIcon on macOS, empty elsewhere. -/
def GetTitle (os : Platform) (self : Tray) : String :=
  match os with
  | .mac => self.tray_icon_.GetTitle
  | _ => ""

/-- `Tray::SetIgnoreDoubleClickEvents`: forwarded on macOS only. -/
def SetIgnoreDoubleClickEvents (os : Platform) (self : Tray) (ignore : Bool) : Tray :=
  match os with
  | .mac => { self with tray_icon_ := self.tray_icon_.SetIgnoreDoubleClickEvents ignore }
  | _ => self

/-- `Tray::GetIgnoreDoubleClickEvents`: read from the TrayIcon on macOS, false
elsewhere. -/
def GetIgnoreDoubleClickEvents (os : Platform) (self : Tray) : Bool :=
  match os with
  | .mac => self.tray_icon_.GetIgnoreDoubleClickEvents
  | _ => false

/-- `Tray::DisplayBalloon`. The argument `balloon_options` is the
default-constructed `TrayIcon::BalloonOptions` the function starts from (its
declaration is not among the sources). The results of the five optional `Get`
calls are dropped, as in the source. -/
def DisplayBalloon (os : Platform) (self : Tray) (args : Arguments)
    (options : Dictionary) (balloon_options : BalloonOptions) : Tray × Arguments :=
  let title := options.Get "title" ConvertFromV8_string balloon_options.title
  let balloon_options := { balloon_options with title := title.2 }
  if !title.1 then
    (self, args.ThrowError "'title' and 'content' must be defined")
  else
    let content := options.Get "content" ConvertFromV8_string balloon_options.content
    let balloon_options := { balloon_options with content := content.2 }
    if !content.1 then
      (self, args.ThrowError "'title' and 'content' must be defined")
    else
      let icon : Handle NativeImage := none
      let icon := (options.Get "icon" ConvertFromV8_image icon).2
      let balloon_options := { balloon_options with
        icon_type := (options.Get "iconType" IconType.FromV8 balloon_options.icon_type).2 }
      let balloon_options := { balloon_options with
        large_icon := (options.Get "largeIcon" ConvertFromV8_bool balloon_options.large_icon).2 }
      let balloon_options := { balloon_options with
        no_sound := (options.Get "noSound" ConvertFromV8_bool balloon_options.no_sound).2 }
      let balloon_options := { balloon_options with
        respect_quiet_time :=
          (options.Get "respectQuietTime" ConvertFromV8_bool
            balloon_options.respect_quiet_time).2 }
      let balloon_options :=
        match icon with
        | some img =>
          match os with
          | .win =>
            { balloon_options with
              icon := some (.hicon img
                (if balloon_options.large_icon then SystemMetric.SM_CXICON
                 else SystemMetric.SM_CXSMICON)) }
          | _ => { balloon_options with icon := some (.image img) }
        | none => balloon_options
      ({ self with tray_icon_ := self.tray_icon_.DisplayBalloon balloon_options }, args)

/-- `Tray::RemoveBalloon`. -/
def RemoveBalloon (self : Tray) : Tray :=
  { self with tray_icon_ := self.tray_icon_.RemoveBalloon }

/-- `Tray::Focus`. -/
def Focus (self : Tray) : Tray :=
  { self with tray_icon_ := self.tray_icon_.Focus }

/-- `Tray::PopUpContextMenu`. The argument `pos` is the default-constructed
`gfx::Point` the function starts from (gfx is not among the sources). -/
def PopUpContextMenu (self : Tray) (args : Arguments) (pos : gfx.Point) :
    Tray × Arguments :=
  let menu : Handle Menu := none
  let r := args.GetNext ConvertFromV8_menu menu
  let menu := r.2.1
  let args := r.2.2
  let r := args.GetNext ConvertFromV8_point pos
  let pos := r.2.1
  let args := r.2.2
  let menu_model : Option AtomMenuModel :=
    match menu with
    | none => none
    | some m => some m.model
  ({ self with tray_icon_ := self.tray_icon_.PopUpContextMenu pos menu_model }, args)

/-- `Tray::SetContextMenu`: `menu_` is reset to the wrapper of `menu` (to empty
when the handle is empty), then the TrayIcon gets the model or `nullptr`. -/
def SetContextMenu (self : Tray) (menu : Handle Menu) : Tray :=
  let self := { self with menu_ := menu }
  let menu_model : Option AtomMenuModel :=
    match menu with
    | none => none
    | some m => some m.model
  { self with tray_icon_ := self.tray_icon_.SetContextMenu menu_model }

/-- `Tray::GetBounds`. -/
def GetBounds (self : Tray) : gfx.Rect := self.tray_icon_.GetBounds

end Tray

/-! ## Definitions the statements are written with -/

/-- Parsing by the table of the specification: a string that is one of the five
tokens yields its enum value, anything else is a failure that keeps `out`. -/
def parseIconTypeSpec (val : V8Value) (out : IconType) : Bool × IconType :=
  match val with
  | .string s =>
    match iconTypeTokens.lookup s with
    | some t => (true, t)
    | none => (false, out)
  | _ => (false, out)

/-- A native occurrence reported by the TrayIcon to its observer, with the data
the observer method receives. -/
inductive NativeOccurrence where
  | Clicked (bounds : gfx.Rect) (location : gfx.Point) (modifiers : Int)
  | DoubleClicked (bounds : gfx.Rect) (modifiers : Int)
  | RightClicked (bounds : gfx.Rect) (modifiers : Int)
  | BalloonShow
  | BalloonClicked
  | BalloonClosed
  | Drop
  | DropFiles (files : List String)
  | DropText (text : String)
  | MouseEntered (location : gfx.Point) (modifiers : Int)
  | MouseExited (location : gfx.Point) (modifiers : Int)
  | MouseMoved (location : gfx.Point) (modifiers : Int)
  | DragEntered
  | DragExited
  | DragEnded
  deriving DecidableEq, Repr

/-- Delivery of one native occurrence: the TrayIcon calls the observer method
of the same name on the controller. -/
def Tray.notify (self : Tray) (occ : NativeOccurrence) : Tray :=
  match occ with
  | .Clicked bounds location modifiers => self.OnClicked bounds location modifiers
  | .DoubleClicked bounds modifiers => self.OnDoubleClicked bounds modifiers
  | .RightClicked bounds modifiers => self.OnRightClicked bounds modifiers
  | .BalloonShow => self.OnBalloonShow
  | .BalloonClicked => self.OnBalloonClicked
  | .BalloonClosed => self.OnBalloonClosed
  | .Drop => self.OnDrop
  | .DropFiles files => self.OnDropFiles files
  | .DropText text => self.OnDropText text
  | .MouseEntered location modifiers => self.OnMouseEntered location modifiers
  | .MouseExited location modifiers => self.OnMouseExited location modifiers
  | .MouseMoved location modifiers => self.OnMouseMoved location modifiers
  | .DragEntered => self.OnDragEntered
  | .DragExited => self.OnDragExited
  | .DragEnded => self.OnDragEnded

/-- The event table of the specification: the outbound event name and ordered
payload documented for each native occurrence. -/
def eventTable : NativeOccurrence → Event
  | .Clicked bounds location modifiers =>
    ⟨"click", [.flags modifiers, .rect bounds, .point location]⟩
  | .DoubleClicked bounds modifiers => ⟨"double-click", [.flags modifiers, .rect bounds]⟩
  | .RightClicked bounds modifiers => ⟨"right-click", [.flags modifiers, .rect bounds]⟩
  | .BalloonShow => ⟨"balloon-show", []⟩
  | .BalloonClicked => ⟨"balloon-click", []⟩
  | .BalloonClosed => ⟨"balloon-closed", []⟩
  | .DropFiles files => ⟨"drop-files", [.strings files]⟩
  | .DropText text => ⟨"drop-text", [.string text]⟩
  | .Drop => ⟨"drop", []⟩
  | .MouseEntered location modifiers => ⟨"mouse-enter", [.flags modifiers, .point location]⟩
  | .MouseExited location modifiers => ⟨"mouse-leave", [.flags modifiers, .point location]⟩
  | .MouseMoved location modifiers => ⟨"mouse-move", [.flags modifiers, .point location]⟩
  | .DragEntered => ⟨"drag-enter", []⟩
  | .DragExited => ⟨"drag-leave", []⟩
  | .DragEnded => ⟨"drag-end", []⟩

/-- One operation performed on the controller: a call of one of its methods
with its arguments, or the delivery of a native occurrence. -/
inductive TrayOp where
  | SetImage (image : NativeImage)
  | SetPressedImage (image : NativeImage)
  | SetToolTip (tool_tip : String)
  | SetTitle (title : String)
  | SetIgnoreDoubleClickEvents (ignore : Bool)
  | DisplayBalloon (args : Arguments) (options : Dictionary)
      (balloon_options : BalloonOptions)
  | RemoveBalloon
  | Focus
  | PopUpContextMenu (args : Arguments) (pos : gfx.Point)
  | SetContextMenu (menu : Handle Menu)
  | notify (occ : NativeOccurrence)
  deriving DecidableEq, Repr

/-- The controller after one operation. -/
def Tray.perform (os : Platform) (self : Tray) (op : TrayOp) : Tray :=
  match op with
  | .SetImage image => Tray.SetImage os self image
  | .SetPressedImage image => Tray.SetPressedImage os self image
  | .SetToolTip tool_tip => self.SetToolTip tool_tip
  | .SetTitle title => Tray.SetTitle os self title
  | .SetIgnoreDoubleClickEvents ignore => Tray.SetIgnoreDoubleClickEvents os self ignore
  | .DisplayBalloon args options balloon_options =>
    (Tray.DisplayBalloon os self args options balloon_options).1
  | .RemoveBalloon => self.RemoveBalloon
  | .Focus => self.Focus
  | .PopUpContextMenu args pos => (self.PopUpContextMenu args pos).1
  | .SetContextMenu menu => self.SetContextMenu menu
  | .notify occ => self.notify occ

/-- The most recently attached menu after a sequence of operations, by the
specification: the argument of the last `SetContextMenu` among them, or the
menu attached before them when there is none. -/
def latestAttached (attached : Handle Menu) : List TrayOp → Handle Menu
  | [] => attached
  | .SetContextMenu menu :: rest => latestAttached menu rest
  | _ :: rest => latestAttached attached rest

/-- The image a TrayIcon is to receive for the icon resource `i` according to
the specification: `i` itself where a generic image is accepted, `i` rendered
at the small-icon size on Windows. -/
def smallIconOf (os : Platform) (i : NativeImage) : ImageType :=
  if os = Platform.win then ImageType.hicon i SystemMetric.SM_CXSMICON
  else ImageType.image i

/-- The icon resource an image given to the TrayIcon was derived from. -/
def ImageType.source : ImageType → NativeImage
  | .hicon src _ => src
  | .image src => src

/-! ## Lemmas -/

/-- The converter computes the same result as the token table. -/
theorem IconType.FromV8_eq_spec (val : V8Value) (out : IconType) :
    IconType.FromV8 val out = parseIconTypeSpec val out := by
  cases val <;> simp [IconType.FromV8, ConvertFromV8_string, parseIconTypeSpec]
  rename_i s
  by_cases h1 : s = "none"
  · subst h1; simp [iconTypeTokens, List.lookup]
  by_cases h2 : s = "info"
  · subst h2; simp [iconTypeTokens, List.lookup]
  by_cases h3 : s = "warning"
  · subst h3; simp [iconTypeTokens, List.lookup]
  by_cases h4 : s = "error"
  · subst h4; simp [iconTypeTokens, List.lookup]
  by_cases h5 : s = "custom"
  · subst h5; simp [iconTypeTokens, List.lookup]
  have e1 : (s == "none") = false := by simpa using h1
  have e2 : (s == "info") = false := by simpa using h2
  have e3 : (s == "warning") = false := by simpa using h3
  have e4 : (s == "error") = false := by simpa using h4
  have e5 : (s == "custom") = false := by simpa using h5
  simp [iconTypeTokens, List.lookup, h1, h2, h3, h4, h5, e1, e2, e3, e4, e5]

/-- The converter succeeds exactly on the five tokens. -/
theorem IconType.FromV8_success_iff (val : V8Value) (out : IconType) :
    (IconType.FromV8 val out).1 = true ↔
      ∃ s, val = V8Value.string s ∧ s ∈ ["none", "info", "warning", "error", "custom"] := by
  cases val <;> simp [IconType.FromV8, ConvertFromV8_string]
  rename_i s
  by_cases h1 : s = "none"
  · simp [h1]
  by_cases h2 : s = "info"
  · simp [h2]
  by_cases h3 : s = "warning"
  · simp [h3]
  by_cases h4 : s = "error"
  · simp [h4]
  by_cases h5 : s = "custom"
  · simp [h5]
  simp [h1, h2, h3, h4, h5]

/-- A failed conversion returns the output it was given. -/
theorem IconType.FromV8_failure_keeps (val : V8Value) (out : IconType) :
    (IconType.FromV8 val out).1 = true ∨ IconType.FromV8 val out = (false, out) := by
  cases val <;> simp [IconType.FromV8, ConvertFromV8_string]
  rename_i s
  by_cases h1 : s = "none"
  · simp [h1]
  by_cases h2 : s = "info"
  · simp [h2]
  by_cases h3 : s = "warning"
  · simp [h3]
  by_cases h4 : s = "error"
  · simp [h4]
  by_cases h5 : s = "custom"
  · simp [h5]
  simp [h1, h2, h3, h4, h5]

/-- Delivering one occurrence appends its table entry to the emitted events. -/
theorem Tray.notify_emitted (self : Tray) (occ : NativeOccurrence) :
    self.notify occ = { self with emitted := self.emitted ++ [eventTable occ] } := by
  cases occ <;> rfl

/-- Delivering a sequence of occurrences appends their table entries in order. -/
theorem Tray.foldl_notify (occs : List NativeOccurrence) (self : Tray) :
    occs.foldl Tray.notify self =
      { self with emitted := self.emitted ++ occs.map eventTable } := by
  induction occs generalizing self with
  | nil => simp
  | cons occ rest ih =>
    rw [List.foldl_cons, ih, Tray.notify_emitted]
    simp

/-- With string `title` and `content` entries, `DisplayBalloon` delegates once,
with options whose fields are the results of the optional `Get` calls. -/
theorem Tray.DisplayBalloon_delegates (os : Platform) (self : Tray)
    (args : Arguments) (options : Dictionary) (init : BalloonOptions) (title content : String)
    (ht : options.lookup "title" = some (V8Value.string title))
    (hc : options.lookup "content" = some (V8Value.string content)) :
    ∃ opts : BalloonOptions,
      Tray.DisplayBalloon os self args options init =
        ({ self with tray_icon_ := self.tray_icon_.DisplayBalloon opts }, args) ∧
      opts.title = title ∧ opts.content = content ∧
      opts.icon_type = (options.Get "iconType" IconType.FromV8 init.icon_type).2 ∧
      opts.large_icon = (options.Get "largeIcon" ConvertFromV8_bool init.large_icon).2 ∧
      opts.no_sound = (options.Get "noSound" ConvertFromV8_bool init.no_sound).2 ∧
      opts.respect_quiet_time =
        (options.Get "respectQuietTime" ConvertFromV8_bool init.respect_quiet_time).2 ∧
      opts.icon =
        (match (options.Get "icon" ConvertFromV8_image none).2 with
         | some img =>
           some (match os with
             | .win => ImageType.hicon img (if opts.large_icon then SystemMetric.SM_CXICON
                 else SystemMetric.SM_CXSMICON)
             | _ => ImageType.image img)
         | none => init.icon) := by
  simp only [Tray.DisplayBalloon, Dictionary.Get, ht, hc, ConvertFromV8_string]
  cases hi : (match options.lookup "icon" with
      | some val => ConvertFromV8_image val none
      | none => (false, none)).2 with
  | none => exact ⟨_, rfl, rfl, rfl, rfl, rfl, rfl, rfl, rfl⟩
  | some img =>
    cases os <;> exact ⟨_, rfl, rfl, rfl, rfl, rfl, rfl, rfl, rfl⟩

/-- An `iconType` entry outside the five tokens makes `Get` fail and keep the
output. -/
theorem Dictionary.Get_icon_type_unrecognised (options : Dictionary) (out : IconType)
    (h : ∀ s, options.lookup "iconType" = some (V8Value.string s) →
      s ∉ ["none", "info", "warning", "error", "custom"]) :
    options.Get "iconType" IconType.FromV8 out = (false, out) := by
  unfold Dictionary.Get
  cases hl : options.lookup "iconType" with
  | none => rfl
  | some val =>
    rcases IconType.FromV8_failure_keeps val out with hs | hf
    · obtain ⟨s, rfl, hmem⟩ := (IconType.FromV8_success_iff val out).1 hs
      exact absurd hmem (h s hl)
    · exact hf

/-- An entry that is not a boolean makes a boolean `Get` fail and keep the
output. -/
theorem Dictionary.Get_bool_unconvertible (options : Dictionary) (key : String) (out : Bool)
    (h : ∀ b, options.lookup key ≠ some (V8Value.boolean b)) :
    options.Get key ConvertFromV8_bool out = (false, out) := by
  unfold Dictionary.Get
  cases hl : options.lookup key with
  | none => rfl
  | some val =>
    cases val <;> simp [ConvertFromV8_bool]
    rename_i b
    exact absurd hl (h b)

/-- The handle read from the `icon` entry: non-empty exactly for an icon
resource. -/
theorem Dictionary.Get_icon (options : Dictionary) :
    (options.Get "icon" ConvertFromV8_image none).2 =
      match options.lookup "icon" with
      | some (V8Value.nativeImage img) => some img
      | _ => none := by
  unfold Dictionary.Get
  cases hl : options.lookup "icon" with
  | none => rfl
  | some val => cases val <;> rfl

/-- Only `SetContextMenu` writes the slot `menu_`. -/
theorem Tray.perform_menu (os : Platform) (self : Tray) (op : TrayOp) :
    (Tray.perform os self op).menu_ =
      match op with
      | .SetContextMenu menu => menu
      | _ => self.menu_ := by
  cases op with
  | SetImage image => cases os <;> rfl
  | SetPressedImage image => cases os <;> rfl
  | SetToolTip tool_tip => rfl
  | SetTitle title => cases os <;> rfl
  | SetIgnoreDoubleClickEvents ignore => cases os <;> rfl
  | DisplayBalloon args options balloon_options =>
    simp only [Tray.perform, Tray.DisplayBalloon]
    split
    · rfl
    · split
      · rfl
      · rfl
  | RemoveBalloon => rfl
  | Focus => rfl
  | PopUpContextMenu args pos => rfl
  | SetContextMenu menu => rfl
  | notify occ => rw [Tray.perform, Tray.notify_emitted]

/-- After any sequence of operations the slot `menu_` holds the most recently
attached menu. -/
theorem Tray.foldl_perform_menu (os : Platform) (ops : List TrayOp) (self : Tray) :
    (ops.foldl (Tray.perform os) self).menu_ = latestAttached self.menu_ ops := by
  induction ops generalizing self with
  | nil => rfl
  | cons op rest ih =>
    rw [List.foldl_cons, ih, Tray.perform_menu]
    cases op <;> rfl

/-- C4: the icon-type converter agrees with the token table of the
specification. It succeeds exactly on the strings `none`, `info`, `warning`,
`error`, `custom`, yielding the matching enum value; on every other string
(such as `bogus`, `None` or the empty string) and on every value that is not a
string it fails and leaves its output as it was. -/
theorem FromV8_icon_type_tokens :
    (∀ out, IconType.FromV8 (.string "none") out = (true, IconType.None)) ∧
    (∀ out, IconType.FromV8 (.string "info") out = (true, IconType.Info)) ∧
    (∀ out, IconType.FromV8 (.string "warning") out = (true, IconType.Warning)) ∧
    (∀ out, IconType.FromV8 (.string "error") out = (true, IconType.Error)) ∧
    (∀ out, IconType.FromV8 (.string "custom") out = (true, IconType.Custom)) ∧
    (∀ val out, (IconType.FromV8 val out).1 = true ↔
      ∃ s, val = V8Value.string s ∧ s ∈ ["none", "info", "warning", "error", "custom"]) ∧
    (∀ val out, (IconType.FromV8 val out).1 = true ∨
      IconType.FromV8 val out = (false, out)) ∧
    (∀ val out, IconType.FromV8 val out = parseIconTypeSpec val out) ∧
    (∀ out, IconType.FromV8 (.string "bogus") out = (false, out)) ∧
    (∀ out, IconType.FromV8 (.string "None") out = (false, out)) ∧
    (∀ out, IconType.FromV8 (.string "") out = (false, out)) ∧
    (∀ out, IconType.FromV8 .undefined out = (false, out)) ∧
    (∀ out, IconType.FromV8 .null out = (false, out)) ∧
    (∀ b out, IconType.FromV8 (.boolean b) out = (false, out)) ∧
    (∀ n out, IconType.FromV8 (.number n) out = (false, out)) ∧
    (∀ img out, IconType.FromV8 (.nativeImage img) out = (false, out)) ∧
    (∀ m out, IconType.FromV8 (.menu m) out = (false, out)) ∧
    (∀ p out, IconType.FromV8 (.point p) out = (false, out)) ∧
    (∀ tag out, IconType.FromV8 (.object tag) out = (false, out)) := by
  refine ⟨?_, ?_, ?_, ?_, ?_, IconType.FromV8_success_iff, IconType.FromV8_failure_keeps,
    IconType.FromV8_eq_spec, ?_, ?_, ?_, ?_, ?_, ?_, ?_, ?_, ?_, ?_, ?_⟩ <;>
    intros <;> simp [IconType.FromV8, ConvertFromV8_string]

/-- C1: when the options dictionary lacks `title`, lacks `content`, or lacks
both, `Tray::DisplayBalloon` throws the invalid-arguments error and returns the
controller exactly as it was: the TrayIcon has received no call (no
`DisplayBalloon` call and no other one) and nothing else has changed. -/
theorem DisplayBalloon_missing_title_or_content (os : Platform) (self : Tray)
    (args : Arguments) (options : Dictionary) (balloon_options : BalloonOptions)
    (h : options.lookup "title" = none ∨ options.lookup "content" = none) :
    Tray.DisplayBalloon os self args options balloon_options =
        (self, args.ThrowError "'title' and 'content' must be defined") ∧
      (Tray.DisplayBalloon os self args options balloon_options).1.tray_icon_.calls =
        self.tray_icon_.calls ∧
      (Tray.DisplayBalloon os self args options balloon_options).2.thrown =
        args.thrown ++ ["'title' and 'content' must be defined"] := by
  have key : Tray.DisplayBalloon os self args options balloon_options =
      (self, args.ThrowError "'title' and 'content' must be defined") := by
    unfold Tray.DisplayBalloon
    rcases h with h | h
    · simp [Dictionary.Get, h]
    · by_cases ht : (options.Get "title" ConvertFromV8_string balloon_options.title).1 = true
      · simp [ht, Dictionary.Get, h]
      · simp [ht]
  rw [key]
  exact ⟨rfl, rfl, rfl⟩

/-- C1 at a concrete input: an empty options object on Linux. -/
theorem DisplayBalloon_missing_title_or_content_witness :
    Tray.DisplayBalloon Platform.linux ⟨TrayIcon.Create, none, []⟩ ⟨[], 0, []⟩ []
        ⟨IconType.Custom, none, "", "", true, false, false⟩ =
        ((⟨TrayIcon.Create, none, []⟩ : Tray),
          (⟨[], 0, []⟩ : Arguments).ThrowError "'title' and 'content' must be defined") ∧
      (Tray.DisplayBalloon Platform.linux ⟨TrayIcon.Create, none, []⟩ ⟨[], 0, []⟩ []
        ⟨IconType.Custom, none, "", "", true, false, false⟩).1.tray_icon_.calls =
        (⟨TrayIcon.Create, none, []⟩ : Tray).tray_icon_.calls ∧
      (Tray.DisplayBalloon Platform.linux ⟨TrayIcon.Create, none, []⟩ ⟨[], 0, []⟩ []
        ⟨IconType.Custom, none, "", "", true, false, false⟩).2.thrown =
        (⟨[], 0, []⟩ : Arguments).thrown ++ ["'title' and 'content' must be defined"] :=
  DisplayBalloon_missing_title_or_content Platform.linux ⟨TrayIcon.Create, none, []⟩
    ⟨[], 0, []⟩ [] ⟨IconType.Custom, none, "", "", true, false, false⟩ (Or.inl rfl)

/-- C2: for every finite sequence of native occurrences delivered to the
observer methods, the events the Event Sink receives are, in the same order and
in the same number, the translations of the occurrences by the event table of
the specification (name and ordered payload); nothing else of the controller
changes. -/
theorem notify_sequence_matches_event_table (occs : List NativeOccurrence) (self : Tray) :
    (occs.foldl Tray.notify self).emitted = self.emitted ++ occs.map eventTable ∧
      ((occs.foldl Tray.notify self).emitted.drop self.emitted.length).length =
        occs.length ∧
      (∀ k, ((occs.foldl Tray.notify self).emitted.drop self.emitted.length).get? k =
        (occs.get? k).map eventTable) ∧
      (occs.foldl Tray.notify self).tray_icon_ = self.tray_icon_ ∧
      (occs.foldl Tray.notify self).menu_ = self.menu_ ∧
      (∀ (b : gfx.Rect) (p : gfx.Point) (m : Int),
        ([NativeOccurrence.Clicked b p m, NativeOccurrence.RightClicked b m,
          NativeOccurrence.BalloonShow].foldl Tray.notify
            { self with emitted := [] }).emitted =
          [⟨"click", [.flags m, .rect b, .point p]⟩,
           ⟨"right-click", [.flags m, .rect b]⟩, ⟨"balloon-show", []⟩]) := by
  rw [Tray.foldl_notify]
  refine ⟨rfl, by simp, fun k => by simp, rfl, rfl, fun b p m => rfl⟩

/-- C3: `Tray::New` fails exactly when the application is not ready. When it
fails it throws the precondition error, returns no controller and creates no
TrayIcon; when the application is ready it throws nothing, creates one TrayIcon
and returns a controller whose TrayIcon has received `SetImage` with the image
derived from `icon` and then `AddObserver`, and which has emitted no event. -/
theorem New_fails_iff_not_ready (os : Platform) (host : Host) (image : NativeImage)
    (args : Arguments) :
    ((Tray.New os host image args).2.2 = none ↔ host.is_ready = false) ∧
      ((Tray.New os host image args).2.1.thrown ≠ args.thrown ↔ host.is_ready = false) ∧
      (∀ n : Nat,
        Tray.New os ⟨false, n⟩ image args =
          (⟨false, n⟩, args.ThrowError "Cannot create Tray before app is ready", none)) ∧
      (∀ n : Nat,
        Tray.New os ⟨true, n⟩ image args =
          (⟨true, n + 1⟩, args,
            some
              { tray_icon_ :=
                  { TrayIcon.Create with
                    image := some (smallIconOf os image)
                    observers := 1
                    calls := [.SetImage (smallIconOf os image), .AddObserver] }
                menu_ := none
                emitted := [] })) := by
  refine ⟨?_, ?_, ?_, ?_⟩
  · cases hr : host.is_ready <;> simp [Tray.New, hr]
  · cases hr : host.is_ready <;> simp [Tray.New, hr, Arguments.ThrowError]
  · intro n
    rfl
  · intro n
    cases os <;>
      simp [Tray.New, Tray.ctor, Tray.SetImage, TrayIcon.SetImage, TrayIcon.AddObserver,
        TrayIcon.Create, smallIconOf]

/-- C5: on a platform other than macOS, `SetTitle` and
`SetIgnoreDoubleClickEvents` return the controller unchanged (no TrayIcon call,
no state change), `GetTitle` returns the empty string and
`GetIgnoreDoubleClickEvents` returns false, in every state of the controller
and so whatever setters ran before. -/
theorem title_and_double_click_gated (os : Platform) (h : os ≠ Platform.mac) (self : Tray)
    (x : String) (b : Bool) :
    Tray.SetTitle os self x = self ∧
      Tray.SetIgnoreDoubleClickEvents os self b = self ∧
      Tray.GetTitle os self = "" ∧
      Tray.GetIgnoreDoubleClickEvents os self = false ∧
      Tray.GetTitle os (Tray.SetTitle os self x) = "" ∧
      Tray.GetIgnoreDoubleClickEvents os (Tray.SetIgnoreDoubleClickEvents os self b) =
        false := by
  cases os
  · exact ⟨rfl, rfl, rfl, rfl, rfl, rfl⟩
  · exact absurd rfl h
  · exact ⟨rfl, rfl, rfl, rfl, rfl, rfl⟩


/-- C5 at a concrete input: Linux, a fresh controller, title `x`. -/
theorem title_and_double_click_gated_witness :
    Tray.SetTitle Platform.linux ⟨TrayIcon.Create, none, []⟩ "x" =
        ⟨TrayIcon.Create, none, []⟩ ∧
      Tray.SetIgnoreDoubleClickEvents Platform.linux ⟨TrayIcon.Create, none, []⟩ true =
        ⟨TrayIcon.Create, none, []⟩ ∧
      Tray.GetTitle Platform.linux ⟨TrayIcon.Create, none, []⟩ = "" ∧
      Tray.GetIgnoreDoubleClickEvents Platform.linux ⟨TrayIcon.Create, none, []⟩ = false ∧
      Tray.GetTitle Platform.linux
        (Tray.SetTitle Platform.linux ⟨TrayIcon.Create, none, []⟩ "x") = "" ∧
      Tray.GetIgnoreDoubleClickEvents Platform.linux
        (Tray.SetIgnoreDoubleClickEvents Platform.linux ⟨TrayIcon.Create, none, []⟩ true) =
        false :=
  title_and_double_click_gated Platform.linux (by decide) ⟨TrayIcon.Create, none, []⟩ "x" true

/-- C6: the slot `menu_` holds exactly the menu of the latest `SetContextMenu`
call. After attaching A it holds A, after then attaching B it holds B, after
then detaching it is empty; each call makes exactly one
`TrayIcon::SetContextMenu` call, with the model of the menu now in the slot or
with null when the slot is empty; and no other operation of the controller
touches the slot, so after any sequence of operations the slot holds the most
recently attached menu. -/
theorem SetContextMenu_retains_latest (os : Platform) (self : Tray) (A B : Menu) :
    (self.SetContextMenu (some A)).menu_ = some A ∧
      (self.SetContextMenu (some A)).tray_icon_.calls =
        self.tray_icon_.calls ++ [.SetContextMenu (some A.model)] ∧
      ((self.SetContextMenu (some A)).SetContextMenu (some B)).menu_ = some B ∧
      ((self.SetContextMenu (some A)).SetContextMenu (some B)).tray_icon_.calls =
        self.tray_icon_.calls ++
          [.SetContextMenu (some A.model), .SetContextMenu (some B.model)] ∧
      (((self.SetContextMenu (some A)).SetContextMenu (some B)).SetContextMenu none).menu_ =
        none ∧
      (((self.SetContextMenu (some A)).SetContextMenu (some B)).SetContextMenu
          none).tray_icon_.calls =
        self.tray_icon_.calls ++
          [.SetContextMenu (some A.model), .SetContextMenu (some B.model),
           .SetContextMenu none] ∧
      (∀ (t : Tray) (menu : Handle Menu),
        (t.SetContextMenu menu).menu_ = menu ∧
        (t.SetContextMenu menu).tray_icon_.calls =
          t.tray_icon_.calls ++
            [.SetContextMenu (Option.map Menu.model (t.SetContextMenu menu).menu_)] ∧
        (t.SetContextMenu menu).emitted = t.emitted) ∧
      (∀ (t : Tray) (ops : List TrayOp),
        (ops.foldl (Tray.perform os) t).menu_ = latestAttached t.menu_ ops) ∧
      (∀ (t : Tray) (i : NativeImage) (occ : NativeOccurrence) (args : Arguments)
          (p : gfx.Point),
        ([TrayOp.SetContextMenu (some A), TrayOp.SetImage i, TrayOp.notify occ,
          TrayOp.SetContextMenu (some B), TrayOp.PopUpContextMenu args p,
          TrayOp.Focus].foldl (Tray.perform os) t).menu_ = some B) := by
  refine ⟨rfl, ?_, rfl, ?_, rfl, ?_, ?_, ?_, ?_⟩
  · simp [Tray.SetContextMenu, TrayIcon.SetContextMenu]
  · simp [Tray.SetContextMenu, TrayIcon.SetContextMenu]
  · simp [Tray.SetContextMenu, TrayIcon.SetContextMenu]
  · intro t menu
    cases menu <;> simp [Tray.SetContextMenu, TrayIcon.SetContextMenu]
  · intro t ops
    exact Tray.foldl_perform_menu os ops t
  · intro t i occ args p
    rw [Tray.foldl_perform_menu]
    rfl

/-- C8: `Tray::SetImage` makes exactly one TrayIcon call, `SetImage`, whose
argument is derived from the given resource and from no other: the resource
itself where a generic image is accepted, the resource rendered at the
small-icon size on Windows; afterwards the current icon of the TrayIcon is that
image and the pressed icon is as before. `Tray::SetPressedImage` does the same
on the pressed icon and leaves the current icon as before. -/
theorem SetImage_passes_given_resource (os : Platform) (self : Tray) (i : NativeImage) :
    (Tray.SetImage os self i).tray_icon_.calls =
        self.tray_icon_.calls ++ [.SetImage (smallIconOf os i)] ∧
      (smallIconOf os i).source = i ∧
      (Tray.SetImage os self i).tray_icon_.image = some (smallIconOf os i) ∧
      (Tray.SetImage os self i).tray_icon_.pressed_image = self.tray_icon_.pressed_image ∧
      (Tray.SetImage os self i).menu_ = self.menu_ ∧
      (Tray.SetImage os self i).emitted = self.emitted ∧
      (Tray.SetPressedImage os self i).tray_icon_.calls =
        self.tray_icon_.calls ++ [.SetPressedImage (smallIconOf os i)] ∧
      (Tray.SetPressedImage os self i).tray_icon_.pressed_image =
        some (smallIconOf os i) ∧
      (Tray.SetPressedImage os self i).tray_icon_.image = self.tray_icon_.image ∧
      (Tray.SetPressedImage os self i).menu_ = self.menu_ ∧
      (Tray.SetPressedImage os self i).emitted = self.emitted ∧
      smallIconOf Platform.win i = ImageType.hicon i SystemMetric.SM_CXSMICON ∧
      smallIconOf Platform.mac i = ImageType.image i ∧
      smallIconOf Platform.linux i = ImageType.image i := by
  cases os <;>
    simp [Tray.SetImage, Tray.SetPressedImage, TrayIcon.SetImage, TrayIcon.SetPressedImage,
      smallIconOf, ImageType.source]

/-- C7 as stated fails, reading an entry as a key that is present. The
options object with `title`, a `content` entry holding `null`, `iconType` set
to `custom` and no `icon` entry has both `title` and `content`, yet
`Tray::DisplayBalloon` throws and makes no TrayIcon call. The options object
with string `title` and `content`, `iconType` set to `custom` and an `icon`
entry holding the number 5 does supply an `icon` entry, yet the options
delegated to the TrayIcon have no icon resource. -/
theorem DisplayBalloon_present_entries_unconvertible :
    ((List.lookup "title"
        [("title", V8Value.string "t"), ("content", V8Value.null),
         ("iconType", V8Value.string "custom")]).isSome = true ∧
      (List.lookup "content"
        [("title", V8Value.string "t"), ("content", V8Value.null),
         ("iconType", V8Value.string "custom")]).isSome = true ∧
      (List.lookup "icon"
        [("title", V8Value.string "t"), ("content", V8Value.null),
         ("iconType", V8Value.string "custom")]).isSome = false ∧
      Tray.DisplayBalloon Platform.linux ⟨TrayIcon.Create, none, []⟩ ⟨[], 0, []⟩
        [("title", V8Value.string "t"), ("content", V8Value.null),
         ("iconType", V8Value.string "custom")]
        ⟨IconType.Custom, none, "", "", true, false, false⟩ =
        (⟨TrayIcon.Create, none, []⟩,
          ⟨[], 0, ["'title' and 'content' must be defined"]⟩)) ∧
    ((List.lookup "icon"
        [("title", V8Value.string "t"), ("content", V8Value.string "c"),
         ("iconType", V8Value.string "custom"), ("icon", V8Value.number 5)]).isSome = true ∧
      Tray.DisplayBalloon Platform.linux ⟨TrayIcon.Create, none, []⟩ ⟨[], 0, []⟩
        [("title", V8Value.string "t"), ("content", V8Value.string "c"),
         ("iconType", V8Value.string "custom"), ("icon", V8Value.number 5)]
        ⟨IconType.Custom, none, "", "", true, false, false⟩ =
        (⟨TrayIcon.Create.DisplayBalloon ⟨IconType.Custom, none, "t", "c", true, false, false⟩,
          none, []⟩, ⟨[], 0, []⟩) ∧
      ¬ ((BalloonOptions.mk IconType.Custom none "t" "c" true false false).icon.isSome = true ↔
        (List.lookup "icon"
          [("title", V8Value.string "t"), ("content", V8Value.string "c"),
           ("iconType", V8Value.string "custom"), ("icon", V8Value.number 5)]).isSome =
          true)) := by
  decide

/-- C7, amended: for every options dictionary whose `title` and `content`
entries are both strings, `Tray::DisplayBalloon` throws nothing and calls
`TrayIcon::DisplayBalloon` exactly once, with options carrying that title and
content; with `iconType` set to `custom` the icon type is Custom, and with no
`icon` entry the icon resource is left unset. More generally the icon resource
of the delegated options is set if and only if the `icon` entry holds a value
that converts to an icon resource, and it is then derived from that resource;
an `icon` entry of any other value leaves it unset. The default-constructed
options are taken to have no icon. -/
theorem DisplayBalloon_icon_set_iff_resource (os : Platform) (self : Tray)
    (args : Arguments) (options : Dictionary) (init : BalloonOptions) (title content : String)
    (ht : options.lookup "title" = some (V8Value.string title))
    (hc : options.lookup "content" = some (V8Value.string content))
    (h0 : init.icon = none) :
    ∃ opts : BalloonOptions,
      Tray.DisplayBalloon os self args options init =
        ({ self with tray_icon_ := self.tray_icon_.DisplayBalloon opts }, args) ∧
      (Tray.DisplayBalloon os self args options init).1.tray_icon_.calls =
        self.tray_icon_.calls ++ [.DisplayBalloon opts] ∧
      (Tray.DisplayBalloon os self args options init).2.thrown = args.thrown ∧
      opts.title = title ∧ opts.content = content ∧
      (options.lookup "iconType" = some (V8Value.string "custom") →
        opts.icon_type = IconType.Custom) ∧
      (options.lookup "icon" = none → opts.icon = none) ∧
      (opts.icon.isSome = true ↔
        ∃ img, options.lookup "icon" = some (V8Value.nativeImage img)) ∧
      (opts.icon.isSome = true ↔
        (options.Get "icon" ConvertFromV8_image none).1 = true) ∧
      (∀ img, options.lookup "icon" = some (V8Value.nativeImage img) →
        Option.map ImageType.source opts.icon = some img) := by
  obtain ⟨opts, hd, h1, h2, h3, -, -, -, h7⟩ :=
    Tray.DisplayBalloon_delegates os self args options init title content ht hc
  rw [Dictionary.Get_icon, h0] at h7
  refine ⟨opts, hd, by rw [hd]; rfl, by rw [hd], h1, h2, ?_, ?_, ?_, ?_, ?_⟩
  · intro hty
    rw [h3]
    simp [Dictionary.Get, hty, IconType.FromV8, ConvertFromV8_string]
  · intro hi
    rw [h7, hi]
  · rw [h7]
    cases hl : options.lookup "icon" with
    | none => simp
    | some val => cases val <;> simp
  · rw [h7]
    unfold Dictionary.Get
    cases hl : options.lookup "icon" with
    | none => simp
    | some val => cases val <;> simp [ConvertFromV8_image]
  · intro img hi
    rw [h7, hi]
    cases os <;> rfl

/-- C7, amended, at a concrete input: title, content, `iconType` set to
`custom` and no `icon` entry, on Windows. -/
theorem DisplayBalloon_icon_set_iff_resource_witness :
    ∃ opts : BalloonOptions,
      Tray.DisplayBalloon Platform.win ⟨TrayIcon.Create, none, []⟩ ⟨[], 0, []⟩
          [("title", V8Value.string "t"), ("content", V8Value.string "c"),
           ("iconType", V8Value.string "custom")]
          ⟨IconType.Info, none, "", "", true, false, false⟩ =
        ({ (⟨TrayIcon.Create, none, []⟩ : Tray) with
            tray_icon_ := (⟨TrayIcon.Create, none, []⟩ : Tray).tray_icon_.DisplayBalloon opts },
          ⟨[], 0, []⟩) ∧
      opts.title = "t" ∧ opts.content = "c" ∧ opts.icon_type = IconType.Custom ∧
      opts.icon = none := by
  obtain ⟨opts, hd, -, -, h1, h2, h3, h4, -, -, -⟩ :=
    DisplayBalloon_icon_set_iff_resource Platform.win ⟨TrayIcon.Create, none, []⟩ ⟨[], 0, []⟩
      [("title", V8Value.string "t"), ("content", V8Value.string "c"),
       ("iconType", V8Value.string "custom")]
      ⟨IconType.Info, none, "", "", true, false, false⟩ "t" "c" (by decide) (by decide) rfl
  exact ⟨opts, hd, h1, h2, h3 (by decide), h4 (by decide)⟩

/-- C10 as stated fails, reading an entry as a key that is present: the
options object with a `title` entry holding the number 5, a string `content`
and `iconType` set to `bogus` has both `title` and `content` and an
unrecognised icon type, yet `Tray::DisplayBalloon` throws and makes no TrayIcon
call. -/
theorem DisplayBalloon_title_not_string_throws :
    (List.lookup "title"
        [("title", V8Value.number 5), ("content", V8Value.string "c"),
         ("iconType", V8Value.string "bogus")]).isSome = true ∧
      (List.lookup "content"
        [("title", V8Value.number 5), ("content", V8Value.string "c"),
         ("iconType", V8Value.string "bogus")]).isSome = true ∧
      Tray.DisplayBalloon Platform.linux ⟨TrayIcon.Create, none, []⟩ ⟨[], 0, []⟩
        [("title", V8Value.number 5), ("content", V8Value.string "c"),
         ("iconType", V8Value.string "bogus")]
        ⟨IconType.Custom, none, "", "", true, false, false⟩ =
        (⟨TrayIcon.Create, none, []⟩,
          ⟨[], 0, ["'title' and 'content' must be defined"]⟩) := by
  decide

/-- C10, amended: for every options dictionary whose `title` and `content`
entries are both strings, `Tray::DisplayBalloon` throws nothing and calls
`TrayIcon::DisplayBalloon` exactly once, whatever the other entries hold. When
the `iconType` entry is not one of the five recognised tokens (another string,
not a string, or missing) the icon type of the delegated options is the
default-constructed one; likewise an `icon`, `largeIcon`, `noSound` or
`respectQuietTime` entry that does not convert leaves its field as
default-constructed. -/
theorem DisplayBalloon_optional_entries_never_fail (os : Platform) (self : Tray)
    (args : Arguments) (options : Dictionary) (init : BalloonOptions) (title content : String)
    (ht : options.lookup "title" = some (V8Value.string title))
    (hc : options.lookup "content" = some (V8Value.string content)) :
    ∃ opts : BalloonOptions,
      Tray.DisplayBalloon os self args options init =
        ({ self with tray_icon_ := self.tray_icon_.DisplayBalloon opts }, args) ∧
      (Tray.DisplayBalloon os self args options init).1.tray_icon_.calls =
        self.tray_icon_.calls ++ [.DisplayBalloon opts] ∧
      (Tray.DisplayBalloon os self args options init).2.thrown = args.thrown ∧
      opts.title = title ∧ opts.content = content ∧
      ((∀ s, options.lookup "iconType" = some (V8Value.string s) →
          s ∉ ["none", "info", "warning", "error", "custom"]) →
        opts.icon_type = init.icon_type) ∧
      ((∀ img, options.lookup "icon" ≠ some (V8Value.nativeImage img)) →
        opts.icon = init.icon) ∧
      ((∀ b, options.lookup "largeIcon" ≠ some (V8Value.boolean b)) →
        opts.large_icon = init.large_icon) ∧
      ((∀ b, options.lookup "noSound" ≠ some (V8Value.boolean b)) →
        opts.no_sound = init.no_sound) ∧
      ((∀ b, options.lookup "respectQuietTime" ≠ some (V8Value.boolean b)) →
        opts.respect_quiet_time = init.respect_quiet_time) := by
  obtain ⟨opts, hd, h1, h2, h3, h4, h5, h6, h7⟩ :=
    Tray.DisplayBalloon_delegates os self args options init title content ht hc
  refine ⟨opts, hd, by rw [hd]; rfl, by rw [hd], h1, h2, ?_, ?_, ?_, ?_, ?_⟩
  · intro h
    rw [h3, Dictionary.Get_icon_type_unrecognised options _ h]
  · intro h
    rw [h7, Dictionary.Get_icon]
    cases hl : options.lookup "icon" with
    | none => rfl
    | some val =>
      cases val <;> first | rfl | exact absurd hl (h _)
  · intro h
    rw [h4, Dictionary.Get_bool_unconvertible options _ _ h]
  · intro h
    rw [h5, Dictionary.Get_bool_unconvertible options _ _ h]
  · intro h
    rw [h6, Dictionary.Get_bool_unconvertible options _ _ h]

/-- C10, amended, at a concrete input: title, content, the unrecognised token `bogus`
as `iconType` and a number as `noSound`, on Linux. -/
theorem DisplayBalloon_optional_entries_never_fail_witness :
    ∃ opts : BalloonOptions,
      Tray.DisplayBalloon Platform.linux ⟨TrayIcon.Create, none, []⟩ ⟨[], 0, []⟩
          [("title", V8Value.string "t"), ("content", V8Value.string "c"),
           ("iconType", V8Value.string "bogus"), ("noSound", V8Value.number 1)]
          ⟨IconType.Info, none, "", "", true, false, false⟩ =
        ({ (⟨TrayIcon.Create, none, []⟩ : Tray) with
            tray_icon_ := (⟨TrayIcon.Create, none, []⟩ : Tray).tray_icon_.DisplayBalloon opts },
          ⟨[], 0, []⟩) ∧
      opts.icon_type = IconType.Info ∧ opts.no_sound = false := by
  obtain ⟨opts, hd, -, -, -, -, h3, -, -, h5, -⟩ :=
    DisplayBalloon_optional_entries_never_fail Platform.linux ⟨TrayIcon.Create, none, []⟩
      ⟨[], 0, []⟩
      [("title", V8Value.string "t"), ("content", V8Value.string "c"),
       ("iconType", V8Value.string "bogus"), ("noSound", V8Value.number 1)]
      ⟨IconType.Info, none, "", "", true, false, false⟩ "t" "c" (by decide) (by decide)
  refine ⟨opts, hd, h3 ?_, h5 ?_⟩
  · intro s hs
    have : s = "bogus" := by
      have : (List.lookup "iconType"
          [("title", V8Value.string "t"), ("content", V8Value.string "c"),
           ("iconType", V8Value.string "bogus"), ("noSound", V8Value.number 1)]) =
          some (V8Value.string "bogus") := by decide
      rw [this] at hs
      injection hs with hs
      injection hs with hs
      exact hs.symm
    subst this
    decide
  · intro b hb
    have hl : (List.lookup "noSound"
        [("title", V8Value.string "t"), ("content", V8Value.string "c"),
         ("iconType", V8Value.string "bogus"), ("noSound", V8Value.number 1)]) =
        some (V8Value.number 1) := by decide
    rw [hl] at hb
    cases hb
